import Mathlib

/-!
# Verification of the CLI_Proxy credential-lifecycle and translation core

Shallow embedding of the Python sources under `src/app/` (auth/base.py,
auth/manager.py, auth/claude.py, stores/base.py, stores/file_store.py,
translator/base.py, translator/openai_to_gemini.py, translator/registry.py).

Modelling conventions:
* Naive-UTC `datetime` values are represented by their microsecond count
  since the epoch (an `Int`).  Python naive datetimes are totally ordered
  and subtract exactly at microsecond resolution, so comparison and
  subtraction in the code commute with this representation.  Each operation
  that calls `datetime.utcnow()` receives the current time as an explicit
  `now` parameter (calls that read the clock twice in one operation are
  modelled with a single instant).
* The ISO-8601 string produced by `datetime.isoformat()` is injective with
  inverse `datetime.fromisoformat()`; the string is therefore represented
  by the timestamp it denotes (`IsoTime`).  The `.replace("Z", "+00:00")`
  step in the deserializers is the identity on every string the serializers
  produce (naive datetimes never render a `Z` suffix), so it is not
  represented.
* Python dicts are association lists with position-preserving
  update-or-append (`aput`), matching dict insertion-order semantics.
* `async` functions are pure state transformers: file-system state is
  passed and returned explicitly.
* Vendor HTTP probes are modelled by their observable outcome
  (`ProbeOutcome`): a status code with body text, a timeout, or another
  network exception.
-/

namespace CLIProxy

/-- Naive-UTC timestamp: microseconds since the epoch (see header). -/
abbrev PyTime := Int

/-- `TokenStatus` enumeration from `auth/base.py`. -/
inductive TokenStatus where
  | valid
  | expired
  | invalid
  | refreshNeeded
deriving DecidableEq, Repr

/-- Values stored in metadata / extra-data dictionaries (strings, ISO
timestamps, ints, bools, JSON null). -/
inductive MVal where
  | null
  | bool (b : Bool)
  | int (n : Int)
  | str (s : String)
  | time (t : PyTime)
deriving DecidableEq, Repr

/-- Association-list lookup: value of the first entry with the given key. -/
def aget {κ α : Type} [DecidableEq κ] : List (κ × α) → κ → Option α
  | [], _ => none
  | (k', v) :: rest, k => if k' = k then some v else aget rest k

/-- Position-preserving update-or-append, the semantics of `d[k] = v` on a
Python dict (and of overwriting / creating a file in a directory). -/
def aput {κ α : Type} [DecidableEq κ] : List (κ × α) → κ → α → List (κ × α)
  | [], k, v => [(k, v)]
  | (k', v') :: rest, k, v =>
    if k' = k then (k, v) :: rest else (k', v') :: aput rest k v

/-- Remove every entry with the given key (file deletion). -/
def adel {κ α : Type} [DecidableEq κ] (l : List (κ × α)) (k : κ) : List (κ × α) :=
  l.filter (fun p => decide (p.1 ≠ k))

/-- `d.update(m)` / `\x7b**d, **m\x7d` on Python dicts. -/
def aupdate {κ α : Type} [DecidableEq κ] (d m : List (κ × α)) : List (κ × α) :=
  m.foldl (fun acc p => aput acc p.1 p.2) d

/-- A Python dict with `MVal` values (metadata records, `extra_data`). -/
abbrev Dict := List (String × MVal)

/-- `TokenData` dataclass from `auth/base.py`. -/
structure TokenData where
  access_token : String
  refresh_token : Option String := none
  token_type : String := "Bearer"
  expires_at : Option PyTime := none
  issued_at : Option PyTime := none
  scope : Option String := none
  email : Option String := none
  user_id : Option String := none
  organization_id : Option String := none
  extra_data : Option Dict := none
deriving DecidableEq, Repr

/-- `TokenData.is_expired`: `if not self.expires_at: return False;
return datetime.utcnow() >= self.expires_at`. -/
def TokenData.is_expired (td : TokenData) (now : PyTime) : Bool :=
  match td.expires_at with
  | none => false
  | some e => decide (now ≥ e)

/-- `TokenData.expires_in`: `max(0, int((expires_at - utcnow()).total_seconds()))`
when `expires_at` is set, `None` otherwise.  `int(...)` truncates toward
zero, which `Int.div` matches (float rounding of `total_seconds` only
diverges beyond 2^53 microseconds, outside any realistic expiry). -/
def TokenData.expires_in (td : TokenData) (now : PyTime) : Option Int :=
  match td.expires_at with
  | none => none
  | some e => some (max 0 (Int.tdiv (e - now) 1000000))

/-- Model of the ISO-8601 string `datetime.isoformat()` produces,
represented by the timestamp it denotes (see header). -/
structure IsoTime where
  usec : PyTime
deriving DecidableEq, Repr

/-- `datetime.isoformat()`. -/
def isoformat (t : PyTime) : IsoTime := ⟨t⟩

/-- `datetime.fromisoformat(...)` on a string produced by `isoformat`. -/
def fromisoformat (s : IsoTime) : PyTime := s.usec

/-- The dictionary produced by `TokenData.to_dict` /
`BaseStore._serialize_token`: the `asdict` image with datetimes replaced by
their ISO strings.  Absent optional fields stay `none` (Python `None`). -/
structure TokenDict where
  access_token : String
  refresh_token : Option String
  token_type : String
  expires_at : Option IsoTime
  issued_at : Option IsoTime
  scope : Option String
  email : Option String
  user_id : Option String
  organization_id : Option String
  extra_data : Option Dict
deriving DecidableEq, Repr

/-- `TokenData.to_dict` (auth/base.py): `asdict(self)` followed by
ISO-rendering of the two datetime fields when present. -/
def TokenData.to_dict (td : TokenData) : TokenDict :=
  { access_token := td.access_token
    refresh_token := td.refresh_token
    token_type := td.token_type
    expires_at := td.expires_at.map isoformat
    issued_at := td.issued_at.map isoformat
    scope := td.scope
    email := td.email
    user_id := td.user_id
    organization_id := td.organization_id
    extra_data := td.extra_data }

/-- `TokenData.from_dict` (auth/base.py): parse the two timestamp strings
back to datetimes when present and truthy, then rebuild the dataclass. -/
def TokenData.from_dict (d : TokenDict) : TokenData :=
  { access_token := d.access_token
    refresh_token := d.refresh_token
    token_type := d.token_type
    expires_at := d.expires_at.map fromisoformat
    issued_at := d.issued_at.map fromisoformat
    scope := d.scope
    email := d.email
    user_id := d.user_id
    organization_id := d.organization_id
    extra_data := d.extra_data }

/-- `BaseStore._serialize_token` (stores/base.py): same transformation as
`TokenData.to_dict`, written separately in the source. -/
def serialize_token (td : TokenData) : TokenDict := TokenData.to_dict td

/-- `BaseStore._deserialize_token` (stores/base.py): same transformation as
`TokenData.from_dict`. -/
def deserialize_token (d : TokenDict) : TokenData := TokenData.from_dict d

/-! ## File store (stores/file_store.py)

State = the `tokens/` and `metadata/` trees, each a finite map from
`(provider, sanitized key_id)` — the file path — to the file contents.
Token files hold a `TokenData` (this model stores the value directly, so
the on-disk corruption path of `get_token` cannot arise); metadata files
hold a `Dict`. -/

/-- A file path inside one of the two trees: `(provider, file stem)`. -/
abbrev StoreKey := String × String

/-- Key sanitization in `_get_token_path` / `_get_metadata_path`:
`"".join(c for c in key_id if c.isalnum() or c in "._-")`.  `Char.isAlphanum`
models the ASCII fragment of Python `str.isalnum`. -/
def sanitize_key_id (key_id : String) : String :=
  String.mk (key_id.data.filter (fun c => c.isAlphanum || c == '.' || c == '_' || c == '-'))

/-- File-store state: the token files and the metadata files. -/
structure FS where
  tokens : List (StoreKey × TokenData)
  meta : List (StoreKey × Dict)
deriving DecidableEq, Repr

/-- `FileStore.save_token`: write the serialized token file, and, only when
`metadata` is provided, write the metadata file with `provider`, `key_id`,
fresh `created_at` and `updated_at`, overridden by the caller's entries
(the `**metadata` spread).  Both `utcnow()` calls are modelled as `now`. -/
def FS.save_token (fs : FS) (provider key_id : String) (td : TokenData)
    (metadata : Option Dict) (now : PyTime) : FS :=
  let k : StoreKey := (provider, sanitize_key_id key_id)
  let fs1 : FS := { fs with tokens := aput fs.tokens k td }
  match metadata with
  | none => fs1
  | some m =>
    let base : Dict :=
      [("provider", .str provider), ("key_id", .str key_id),
       ("created_at", .time now), ("updated_at", .time now)]
    { fs1 with meta := aput fs1.meta k (aupdate base m) }

/-- `FileStore.get_token`: read and deserialize the token file, `None` when
the file does not exist.  (The corrupt-file branch is unrepresentable here,
see the `FS` comment.) -/
def FS.get_token (fs : FS) (provider key_id : String) : Option TokenData :=
  aget fs.tokens (provider, sanitize_key_id key_id)

/-- `FileStore.delete_token`: remove both files; `True` iff the token file
existed. -/
def FS.delete_token (fs : FS) (provider key_id : String) : Bool × FS :=
  let k : StoreKey := (provider, sanitize_key_id key_id)
  ((aget fs.tokens k).isSome,
   { tokens := adel fs.tokens k, meta := adel fs.meta k })

/-- `FileStore.list_tokens`: for each token file (optionally filtered by
provider), the metadata file's dict if it exists, else
`\x7b"provider": prov, "key_id": stem\x7d`, augmented with `expires_at`,
`expires_in` and `is_expired` read from the token. -/
def FS.list_tokens (fs : FS) (provider : Option String) (now : PyTime) : List Dict :=
  (fs.tokens.filter (fun p =>
      match provider with
      | none => true
      | some pr => decide (p.1.1 = pr))).map
    (fun p =>
      let prov := p.1.1
      let stem := p.1.2
      let td := p.2
      let md := (aget fs.meta p.1).getD [("provider", .str prov), ("key_id", .str stem)]
      let md := aput md "expires_at"
        (match td.expires_at with | some e => .time e | none => .null)
      let md := aput md "expires_in"
        (match td.expires_in now with | some n => .int n | none => .null)
      aput md "is_expired" (.bool (td.is_expired now)))

/-- `FileStore.update_token_metadata`: load the existing metadata dict (or a
basic one), merge the patch over it, stamp `updated_at`, add `created_at`
only if the key is missing, and write back. -/
def FS.update_token_metadata (fs : FS) (provider key_id : String)
    (metadata : Dict) (now : PyTime) : FS :=
  let k : StoreKey := (provider, sanitize_key_id key_id)
  let existing := (aget fs.meta k).getD [("provider", .str provider), ("key_id", .str key_id)]
  let updated := aupdate existing metadata
  let updated := aput updated "updated_at" (.time now)
  let updated :=
    if (aget updated "created_at").isSome then updated
    else aput updated "created_at" (.time now)
  { fs with meta := aput fs.meta k updated }

/-- `BaseStore.get_valid_token` (stores/base.py), instantiated at the file
backend: absent if no token; if expired, delete and return absent; if the
remaining lifetime is defined and below `min_expiry`, return absent without
touching the store; otherwise return the stored token. -/
def FS.get_valid_token (fs : FS) (provider key_id : String)
    (min_expiry : Int) (now : PyTime) : Option TokenData × FS :=
  match fs.get_token provider key_id with
  | none => (none, fs)
  | some td =>
    if td.is_expired now then
      (none, (fs.delete_token provider key_id).2)
    else
      match td.expires_in now with
      | some e => if e < min_expiry then (none, fs) else (some td, fs)
      | none => (some td, fs)

/-! ## Auth manager (auth/manager.py) -/

/-- The behaviour of one auth provider as observed by `AuthManager.get_token`:
the outcome of its live `validate_token` probe and of `refresh_token`
(`Except.error` models a raised exception). -/
structure AuthProviderModel where
  validate_token : TokenData → TokenStatus
  refresh_token : String → Except Unit TokenData

/-- `AuthManager.get_token`: fetch from the store; when `validate` is set
and a provider is registered, probe the token; a non-valid status leads to
refresh (EXPIRED with a refresh token), or deletion; a refresh exception is
caught, the token deleted and absent returned; a successful refresh is
persisted (no metadata argument) and returned. -/
def AuthManager.get_token (ap : Option AuthProviderModel) (fs : FS)
    (provider key_id : String) (validate : Bool) (now : PyTime) :
    Option TokenData × FS :=
  match fs.get_token provider key_id with
  | none => (none, fs)
  | some td =>
    if validate then
      match ap with
      | none => (some td, fs)
      | some a =>
        match a.validate_token td with
        | .valid => (some td, fs)
        | .expired =>
          match td.refresh_token with
          | some rt =>
            match a.refresh_token rt with
            | .ok newTd => (some newTd, fs.save_token provider key_id newTd none now)
            | .error _ => (none, (fs.delete_token provider key_id).2)
          | none => (none, (fs.delete_token provider key_id).2)
        | _ => (none, (fs.delete_token provider key_id).2)
    else (some td, fs)

/-! ## Claude auth provider (auth/claude.py) -/

/-- Observable outcome of the HTTP probe in `authenticate` /
`validate_token`: a response with status code and body text, an
`httpx.TimeoutException`, or another raised exception (carrying `str(e)`). -/
inductive ProbeOutcome where
  | status (code : Nat) (text : String)
  | timeout
  | netError (msg : String)
deriving DecidableEq, Repr

/-- `AuthResult` dataclass from `auth/base.py`. -/
structure AuthResult where
  success : Bool
  token_data : Option TokenData := none
  error : Option String := none
  error_code : Option String := none
  provider : Option String := none
  auth_url : Option String := none
  oauth_state : Option String := none
  code_verifier : Option String := none
deriving DecidableEq, Repr

/-- `AuthResult.success_result`. -/
def AuthResult.success_result (td : TokenData) (provider : String) : AuthResult :=
  { success := true, token_data := some td, provider := some provider }

/-- `AuthResult.error_result`. -/
def AuthResult.error_result (error error_code provider : String) : AuthResult :=
  { success := false, error := some error, error_code := some error_code,
    provider := some provider }

/-- `ClaudeAuth.authenticate`: reject a missing (or empty, Python truthiness)
API key; probe `POST \x7bbase\x7d/v1/messages`; statuses 200/400/429 mean a valid
key and produce a success result carrying the key as `access_token` with no
expiry; any other status produces the `api_key_validation_failed` error
result; a timeout maps to `connection_timeout` and any other exception to
`authentication_failed`. -/
def claude_authenticate (api_key key_id base_url : Option String)
    (probe : ProbeOutcome) (now : PyTime) : AuthResult :=
  match api_key with
  | none =>
    AuthResult.error_result "API key is required for Claude authentication"
      "missing_api_key" "claude"
  | some ak =>
    if ak = "" then
      AuthResult.error_result "API key is required for Claude authentication"
        "missing_api_key" "claude"
    else
      let kid := key_id.getD (ak.take 8)
      let base := base_url.getD "https://api.anthropic.com"
      match probe with
      | .status code text =>
        if code = 200 ∨ code = 400 ∨ code = 429 then
          AuthResult.success_result
            { access_token := ak
              token_type := "Bearer"
              issued_at := some now
              expires_at := none
              extra_data := some
                [("key_id", .str kid), ("base_url", .str base),
                 ("validation_time", .time now),
                 ("anthropic_version", .str "2023-06-01")] }
            "claude"
        else
          let error_text := if text = "" then "Unknown error" else text.take 200
          AuthResult.error_result
            ("API key validation failed: " ++ toString code ++ " - " ++ error_text)
            "api_key_validation_failed" "claude"
      | .timeout =>
        AuthResult.error_result "Connection timeout while validating API key"
          "connection_timeout" "claude"
      | .netError msg =>
        AuthResult.error_result ("Authentication failed: " ++ msg)
          "authentication_failed" "claude"

/-- `ClaudeAuth.validate_token`: empty key is INVALID; local expiry check
first; then the probe: 200/400/429 VALID, 401 INVALID, any other status
REFRESH_NEEDED; any exception (timeouts included) REFRESH_NEEDED. -/
def claude_validate_token (td : TokenData) (probe : ProbeOutcome)
    (now : PyTime) : TokenStatus :=
  if td.access_token = "" then .invalid
  else if td.is_expired now then .expired
  else
    match probe with
    | .status code _ =>
      if code = 200 ∨ code = 400 ∨ code = 429 then .valid
      else if code = 401 then .invalid
      else .refreshNeeded
    | .timeout => .refreshNeeded
    | .netError _ => .refreshNeeded

/-- `ClaudeAuth.refresh_token`: Claude keys do not expire; re-wrap the same
credential with a fresh `issued_at`. -/
def claude_refresh_token (refresh_token : String) (now : PyTime) : TokenData :=
  { access_token := refresh_token
    token_type := "Bearer"
    issued_at := some now
    expires_at := none }

/-! ## Translators (translator/base.py, translator/openai_to_gemini.py) -/

/-- JSON-like payloads exchanged by the translators.  Numbers are exact
rationals (the payloads are only copied, never computed with). -/
inductive JVal where
  | null
  | bool (b : Bool)
  | num (q : Rat)
  | str (s : String)
  | arr (items : List JVal)
  | obj (fields : List (String × JVal))

/-- A JSON object (a Python dict of payload values). -/
abbrev JObj := List (String × JVal)

/-- Dict lookup on a JSON object. -/
def jget (fields : JObj) (k : String) : Option JVal :=
  aget fields k

/-- Lookup through a `JVal` that should be an object. -/
def JVal.get? : JVal → String → Option JVal
  | .obj fields, k => jget fields k
  | _, _ => none

/-- `TranslationResult` dataclass from `translator/base.py`. -/
structure TranslationResult where
  success : Bool
  translated_data : Option JVal := none
  error : Option String := none
  error_code : Option String := none
  source_format : Option String := none
  target_format : Option String := none

/-- `TranslationResult.success_result`. -/
def TranslationResult.success_result (translated_data : JVal)
    (source_format target_format : String) : TranslationResult :=
  { success := true, translated_data := some translated_data,
    source_format := some source_format, target_format := some target_format }

/-- `TranslationResult.error_result`. -/
def TranslationResult.error_result (error error_code : String)
    (source_format target_format : String) : TranslationResult :=
  { success := false, error := some error, error_code := some error_code,
    source_format := some source_format, target_format := some target_format }

/-- `OpenAIToGeminiTranslator._map_model_name`: static table with default
`"gemini-pro"` (`dict.get(model, "gemini-pro")`). -/
def map_model_name (openai_model : String) : String :=
  let model_mapping : List (String × String) :=
    [("gpt-3.5-turbo", "gemini-pro"), ("gpt-4", "gemini-pro"),
     ("gpt-4-turbo", "gemini-1.5-pro"), ("gpt-4o", "gemini-1.5-flash")]
  (aget model_mapping openai_model).getD "gemini-pro"

/-- `_map_model_name` applied to whatever sits under the `"model"` key: a
non-string value is never a key of the table, so it falls to the default. -/
def map_model_jval : JVal → String
  | .str m => map_model_name m
  | _ => "gemini-pro"

/-- `BaseTranslator._extract_messages`: the `"messages"` value when the key
exists, else messages rebuilt from Gemini `"contents"`, else `[]`.
`Except.error` models a raised exception on a malformed payload (caught by
the caller's `try`/`except`; shapes on which CPython would muddle through
without raising, such as strings iterated as containers, are outside every
payload the claims exercise and are also mapped to the error branch). -/
def extract_messages (request_data : JObj) : Except String JVal :=
  match jget request_data "messages" with
  | some v => .ok v
  | none =>
    match jget request_data "contents" with
    | none => .ok (.arr [])
    | some (.arr contents) => do
      let msgs ← contents.foldlM (fun (acc : List JVal) content => do
        match content with
        | .obj co =>
          match jget co "parts" with
          | none => pure acc
          | some (.arr parts) =>
            parts.foldlM (fun acc part =>
              match part with
              | .obj po =>
                match jget po "text" with
                | none => pure acc
                | some t =>
                  let role := (jget co "role").getD (.str "user")
                  pure (acc ++ [JVal.obj [("role", role), ("content", t)]])
              | _ => .error "part is not a mapping") acc
          | some _ => .error "parts is not a list"
        | _ => .error "content is not a mapping") []
      pure (.arr msgs)
    | some _ => .error "contents is not a list"

/-- `BaseTranslator._create_gemini_contents`: map each message's role
(`assistant`/`system` become `model`, everything else `user`) and wrap the
content in a single text part. -/
def create_gemini_contents (messages : JVal) : Except String (List JVal) :=
  match messages with
  | .arr msgs =>
    msgs.mapM (fun msg =>
      match msg with
      | .obj mo =>
        let role := (jget mo "role").getD (.str "user")
        let content := (jget mo "content").getD (.str "")
        let gemini_role : String :=
          match role with
          | .str s => if s = "assistant" ∨ s = "system" then "model" else "user"
          | _ => "user"
        .ok (.obj [("role", .str gemini_role), ("parts", .arr [.obj [("text", content)]])])
      | _ => .error "message is not a mapping")
  | _ => .error "messages is not a list"

/-- `OpenAIToGeminiTranslator.translate_request`: extract messages, build
Gemini `contents`, then conditionally copy `model` (through the name map),
`temperature`, `max_tokens`→`maxOutputTokens`, `top_p`→`topP`,
`frequency_penalty`→`frequencyPenalty`, `presence_penalty`→`presencePenalty`
and `stop`→`stopSequences`.  Any exception is caught and returned as a
`translation_failed` error result. -/
def translate_request (request_data : JObj) : TranslationResult :=
  let build : Except String JObj := do
    let messages ← extract_messages request_data
    let contents ← create_gemini_contents messages
    let g : JObj := [("contents", .arr contents)]
    let g := match jget request_data "model" with
      | some m => g ++ [("model", .str (map_model_jval m))]
      | none => g
    let g := match jget request_data "temperature" with
      | some v => g ++ [("temperature", v)]
      | none => g
    let g := match jget request_data "max_tokens" with
      | some v => g ++ [("maxOutputTokens", v)]
      | none => g
    let g := match jget request_data "top_p" with
      | some v => g ++ [("topP", v)]
      | none => g
    let g := match jget request_data "frequency_penalty" with
      | some v => g ++ [("frequencyPenalty", v)]
      | none => g
    let g := match jget request_data "presence_penalty" with
      | some v => g ++ [("presencePenalty", v)]
      | none => g
    let g := match jget request_data "stop" with
      | some v => g ++ [("stopSequences", v)]
      | none => g
    pure g
  match build with
  | .ok g => TranslationResult.success_result (.obj g) "openai" "gemini"
  | .error e =>
    TranslationResult.error_result ("Failed to translate request: " ++ e)
      "translation_failed" "openai" "gemini"

/-- One OpenAI choice built in `translate_response`'s candidate loop. -/
def make_choice (idx : Nat) (text finish : JVal) : JVal :=
  .obj [("index", .num idx),
        ("message", .obj [("role", .str "assistant"), ("content", text)]),
        ("finish_reason", finish)]

/-- `OpenAIToGeminiTranslator.translate_response`: flatten every text part
of every candidate into an OpenAI choice (index = running count, finish
reason from `finishReason` with default `"stop"`), then assemble the OpenAI
response with id / object / created / model defaults and the usage counters
from `usageMetadata` (each defaulting to 0).  `pyHash` stands for Python's
`hash(str(response_data))` in the fallback id. -/
def translate_response (pyHash : JObj → Int) (response_data : JObj) : TranslationResult :=
  let build : Except String JObj := do
    let choices ←
      match jget response_data "candidates" with
      | none => pure ([] : List JVal)
      | some (.arr cands) =>
        cands.foldlM (fun (acc : List JVal) cand =>
          match cand with
          | .obj co =>
            match jget co "content" with
            | none => pure acc
            | some (.obj content) =>
              match jget content "parts" with
              | none => pure acc
              | some (.arr parts) =>
                parts.foldlM (fun acc part =>
                  match part with
                  | .obj po =>
                    match jget po "text" with
                    | none => pure acc
                    | some t =>
                      let finish := (jget co "finishReason").getD (.str "stop")
                      pure (acc ++ [make_choice acc.length t finish])
                  | _ => .error "part is not a mapping") acc
              | some _ => .error "parts is not a list"
            | some _ => .error "content is not a mapping"
          | _ => .error "candidate is not a mapping") []
      | some _ => .error "candidates is not a list"
    let usage ←
      match jget response_data "usageMetadata" with
      | none => pure ([] : JObj)
      | some (.obj u) => pure u
      | some _ => .error "usageMetadata is not a mapping"
    pure
      [("id", (jget response_data "id").getD
          (.str ("gemini-" ++ toString (pyHash response_data)))),
       ("object", .str "chat.completion"),
       ("created", (jget response_data "created").getD (.num 0)),
       ("model", (jget response_data "model").getD (.str "gemini-pro")),
       ("choices", .arr choices),
       ("usage", .obj
          [("prompt_tokens", (jget usage "promptTokenCount").getD (.num 0)),
           ("completion_tokens", (jget usage "candidatesTokenCount").getD (.num 0)),
           ("total_tokens", (jget usage "totalTokenCount").getD (.num 0))])]
  match build with
  | .ok o => TranslationResult.success_result (.obj o) "gemini" "openai"
  | .error e =>
    TranslationResult.error_result ("Failed to translate response: " ++ e)
      "translation_failed" "gemini" "openai"

/-! ## Translator registry (translator/registry.py) -/

/-- The closed set of translators the registry instantiates
(`_initialize_default_translators` registers exactly one). -/
inductive TranslatorId where
  | openaiToGemini
deriving DecidableEq, Repr

/-- The registry's `translators` dict after construction: the single entry
under the key `"openai:gemini"`. -/
def registry_translators : List (String × TranslatorId) :=
  [("openai:gemini", .openaiToGemini)]

/-- `TranslatorRegistry.get_translator`: exact lookup of the
`"source:target"` key. -/
def get_translator (source_format target_format : String) : Option TranslatorId :=
  aget registry_translators (source_format ++ ":" ++ target_format)

/-- `TranslatorRegistry.translate_request`: look up the exact
`(source, target)` pair; unregistered pairs yield the
`translator_not_found` error result. -/
def registry_translate_request (source_format target_format : String)
    (request_data : JObj) : TranslationResult :=
  match get_translator source_format target_format with
  | none =>
    TranslationResult.error_result
      ("No translator found from " ++ source_format ++ " to " ++ target_format)
      "translator_not_found" source_format target_format
  | some .openaiToGemini => translate_request request_data

/-- `TranslatorRegistry.translate_response`: look up the reverse pair
`(target, source)`; unregistered pairs yield the `translator_not_found`
error result (with the formats also swapped in the result, as in the
source). -/
def registry_translate_response (pyHash : JObj → Int)
    (source_format target_format : String) (response_data : JObj) : TranslationResult :=
  match get_translator target_format source_format with
  | none =>
    TranslationResult.error_result
      ("No translator found from " ++ target_format ++ " back to " ++ source_format)
      "translator_not_found" target_format source_format
  | some .openaiToGemini => translate_response pyHash response_data

/-! ## Concrete fixtures used by witnesses -/

/-- Fixture: a token expiring at t = 100 s with no refresh token. -/
def sampleToken : TokenData :=
  { access_token := "tok", expires_at := some 100000000 }

/-- Fixture: a store holding `sampleToken` under `("gemini", "k1")`. -/
def sampleStore : FS :=
  { tokens := [(("gemini", "k1"), sampleToken)], meta := [] }

/-- Fixture: an auth provider whose live probe reports EXPIRED and whose
refresh raises. -/
def expiredRaisingProvider : AuthProviderModel :=
  { validate_token := fun _ => .expired, refresh_token := fun _ => .error () }

/-- Fixture: the OpenAI chat request of the round-pair property. -/
def roundPairRequest : JObj :=
  [("messages", .arr [.obj [("role", .str "user"), ("content", .str "hi")]]),
   ("model", .str "gpt-4"),
   ("temperature", .num (1 / 2))]

/-- Fixture: the synthetic Gemini response of the round-pair property. -/
def roundPairResponse : JObj :=
  [("candidates", .arr
     [.obj [("content", .obj [("parts", .arr [.obj [("text", .str "hello")]])]),
            ("finishReason", .str "STOP")]]),
   ("usageMetadata", .obj
     [("promptTokenCount", .num 3), ("candidatesTokenCount", .num 1),
      ("totalTokenCount", .num 4)])]

/-! ## Association-list lemmas -/

theorem aget_aput_self {κ α : Type} [DecidableEq κ] (l : List (κ × α)) (k : κ) (v : α) :
    aget (aput l k v) k = some v := by
  induction l with
  | nil => simp [aput, aget]
  | cons p rest ih =>
    obtain ⟨k', v'⟩ := p
    by_cases h : k' = k
    · simp [aput, aget, h]
    · simp [aput, aget, h, ih]

theorem aget_aput_ne {κ α : Type} [DecidableEq κ] (l : List (κ × α)) (k k' : κ) (v : α)
    (h : k' ≠ k) : aget (aput l k v) k' = aget l k' := by
  induction l with
  | nil => simp [aput, aget, Ne.symm h]
  | cons p rest ih =>
    obtain ⟨k₀, v₀⟩ := p
    by_cases h₀ : k₀ = k
    · subst h₀
      simp [aput, aget, Ne.symm h]
    · simp [aput, aget, h₀, ih]

theorem aget_adel_self {κ α : Type} [DecidableEq κ] (l : List (κ × α)) (k : κ) :
    aget (adel l k) k = none := by
  induction l with
  | nil => rfl
  | cons p rest ih =>
    obtain ⟨k₀, v₀⟩ := p
    by_cases h₀ : k₀ = k
    · simpa [adel, List.filter, h₀] using ih
    · simpa [adel, List.filter, h₀, aget] using ih

theorem aget_eq_none_of_not_mem {κ α : Type} [DecidableEq κ] (l : List (κ × α)) (k : κ)
    (h : k ∉ l.map Prod.fst) : aget l k = none := by
  induction l with
  | nil => rfl
  | cons p rest ih =>
    obtain ⟨k₀, v₀⟩ := p
    simp only [List.map_cons, List.mem_cons] at h
    push_neg at h
    simp [aget, Ne.symm h.1, ih h.2]

theorem aget_aupdate_of_not_mem {κ α : Type} [DecidableEq κ] (d m : List (κ × α)) (k : κ)
    (h : ∀ p ∈ m, p.1 ≠ k) : aget (aupdate d m) k = aget d k := by
  induction m generalizing d with
  | nil => rfl
  | cons p rest ih =>
    have hp : p.1 ≠ k := h p (List.mem_cons_self _ _)
    have hrest : ∀ q ∈ rest, q.1 ≠ k := fun q hq => h q (List.mem_cons_of_mem _ hq)
    show aget (aupdate (aput d p.1 p.2) rest) k = aget d k
    rw [ih (aput d p.1 p.2) hrest, aget_aput_ne _ _ _ _ hp.symm]

/-! ## Claim theorems -/

/-- C7: serializing a `TokenData` and deserializing the result restores
every field, absent optional timestamps included — for both the
`TokenData.to_dict`/`from_dict` pair and the store's
`_serialize_token`/`_deserialize_token` pair. -/
theorem token_serialization_roundtrip (td : TokenData) :
    TokenData.from_dict (TokenData.to_dict td) = td ∧
    deserialize_token (serialize_token td) = td := by
  have hmap : ∀ o : Option PyTime, (o.map isoformat).map fromisoformat = o := by
    intro o; cases o <;> rfl
  have h : TokenData.from_dict (TokenData.to_dict td) = td := by
    cases td
    simp [TokenData.to_dict, TokenData.from_dict, hmap]
  exact ⟨h, h⟩

/-- C8: `is_expired` is false when `expires_at` is absent and otherwise true
iff `expires_at` is at or before `now`; `expires_in` is absent when
`expires_at` is absent and otherwise `max 0` of the remaining whole
seconds. -/
theorem token_expiry_semantics (td : TokenData) (now : PyTime) :
    (td.expires_at = none → td.is_expired now = false) ∧
    (∀ e, td.expires_at = some e → (td.is_expired now = true ↔ e ≤ now)) ∧
    (td.expires_at = none → td.expires_in now = none) ∧
    (∀ e, td.expires_at = some e →
      td.expires_in now = some (max 0 (Int.tdiv (e - now) 1000000))) := by
  refine ⟨fun h => ?_, fun e h => ?_, fun h => ?_, fun e h => ?_⟩ <;>
    simp [TokenData.is_expired, TokenData.expires_in, h, ge_iff_le]

/-- Witness for C8 at a token expiring at t=5s, queried at t=7s and a token
with no expiry. -/
theorem token_expiry_semantics_witness :
    (TokenData.is_expired { access_token := "tok", expires_at := some 5000000 } 7000000
        = true ↔ (5000000 : Int) ≤ 7000000) ∧
    TokenData.expires_in { access_token := "tok" } 7000000 = none :=
  ⟨(token_expiry_semantics { access_token := "tok", expires_at := some 5000000 } 7000000).2.1
      5000000 rfl,
   (token_expiry_semantics { access_token := "tok" } 7000000).2.2.1 rfl⟩

/-- C9: the model-name map (a total function) sends `gpt-4o` to
`gemini-1.5-flash` and every name outside the static table — such as
`some-unknown-model` — to the default `gemini-pro`. -/
theorem model_name_mapping (m : String)
    (h : m ∉ (["gpt-3.5-turbo", "gpt-4", "gpt-4-turbo", "gpt-4o"] : List String)) :
    map_model_name "gpt-4o" = "gemini-1.5-flash" ∧
    map_model_name "some-unknown-model" = "gemini-pro" ∧
    map_model_name m = "gemini-pro" := by
  refine ⟨rfl, rfl, ?_⟩
  simp only [List.mem_cons, List.not_mem_nil, or_false, not_or] at h
  obtain ⟨h1, h2, h3, h4⟩ := h
  simp [map_model_name, aget, Ne.symm h1, Ne.symm h2, Ne.symm h3, Ne.symm h4]

/-- Witness for C9 at the unmapped name `some-unknown-model`. -/
theorem model_name_mapping_witness :
    map_model_name "gpt-4o" = "gemini-1.5-flash" ∧
    map_model_name "some-unknown-model" = "gemini-pro" ∧
    map_model_name "some-unknown-model" = "gemini-pro" :=
  model_name_mapping "some-unknown-model" (by decide)

/-- C2: `get_valid_token` on a stored token: if the token is expired it is
deleted and absent returned; if it is not expired but its remaining
lifetime is below `min_expiry` absent is returned with the store untouched;
otherwise the stored token is returned unchanged. -/
theorem get_valid_token_spec (fs : FS) (provider key_id : String) (td : TokenData)
    (min_expiry : Int) (now : PyTime)
    (hget : fs.get_token provider key_id = some td) :
    (td.is_expired now = true →
      fs.get_valid_token provider key_id min_expiry now
          = (none, (fs.delete_token provider key_id).2) ∧
      ((fs.delete_token provider key_id).2).get_token provider key_id = none) ∧
    (td.is_expired now = false →
      ∀ e, td.expires_in now = some e → e < min_expiry →
        fs.get_valid_token provider key_id min_expiry now = (none, fs)) ∧
    (td.is_expired now = false →
      (∀ e, td.expires_in now = some e → ¬e < min_expiry) →
      fs.get_valid_token provider key_id min_expiry now = (some td, fs)) := by
  refine ⟨fun hexp => ⟨?_, ?_⟩, fun hnexp e he hlt => ?_, fun hnexp hge => ?_⟩
  · simp [FS.get_valid_token, hget, hexp]
  · simp [FS.get_token, FS.delete_token, aget_adel_self]
  · simp [FS.get_valid_token, hget, hnexp, he, hlt]
  · cases hei : td.expires_in now with
    | none => simp [FS.get_valid_token, hget, hnexp, hei]
    | some e => simp [FS.get_valid_token, hget, hnexp, hei, hge e hei]

/-- Witness for C2: `sampleToken` expires at t = 100 s; at t = 50 s it is
not expired but has only 50 s left, below `min_expiry = 60`, so the call
returns absent without deleting. -/
theorem get_valid_token_spec_witness :
    FS.get_valid_token sampleStore "gemini" "k1" 60 50000000 = (none, sampleStore) :=
  (get_valid_token_spec sampleStore "gemini" "k1" sampleToken 60 50000000
      (by decide)).2.1 (by decide) 50 (by decide) (by decide)

/-- C1: `AuthManager.get_token` with validation on a stored token: live
status EXPIRED with no refresh token deletes the record and returns absent;
status INVALID deletes and returns absent; a refresh that raises is caught,
the record deleted and absent returned; a successful refresh persists the
new token and returns it. -/
theorem auth_manager_get_token_fail_closed (a : AuthProviderModel) (fs : FS)
    (provider key_id : String) (td : TokenData) (now : PyTime)
    (hget : fs.get_token provider key_id = some td) :
    (a.validate_token td = .expired → td.refresh_token = none →
      AuthManager.get_token (some a) fs provider key_id true now
          = (none, (fs.delete_token provider key_id).2) ∧
      ((fs.delete_token provider key_id).2).get_token provider key_id = none) ∧
    (a.validate_token td = .invalid →
      AuthManager.get_token (some a) fs provider key_id true now
          = (none, (fs.delete_token provider key_id).2) ∧
      ((fs.delete_token provider key_id).2).get_token provider key_id = none) ∧
    (∀ rt, a.validate_token td = .expired → td.refresh_token = some rt →
      a.refresh_token rt = .error () →
      AuthManager.get_token (some a) fs provider key_id true now
          = (none, (fs.delete_token provider key_id).2) ∧
      ((fs.delete_token provider key_id).2).get_token provider key_id = none) ∧
    (∀ rt newTd, a.validate_token td = .expired → td.refresh_token = some rt →
      a.refresh_token rt = .ok newTd →
      AuthManager.get_token (some a) fs provider key_id true now
          = (some newTd, fs.save_token provider key_id newTd none now) ∧
      (fs.save_token provider key_id newTd none now).get_token provider key_id
          = some newTd) := by
  have hdel : ((fs.delete_token provider key_id).2).get_token provider key_id = none := by
    simp [FS.get_token, FS.delete_token, aget_adel_self]
  refine ⟨fun hv hrt => ⟨?_, hdel⟩, fun hv => ⟨?_, hdel⟩,
    fun rt hv hrt hrf => ⟨?_, hdel⟩, fun rt newTd hv hrt hrf => ⟨?_, ?_⟩⟩
  · simp [AuthManager.get_token, hget, hv, hrt]
  · simp [AuthManager.get_token, hget, hv]
  · simp [AuthManager.get_token, hget, hv, hrt, hrf]
  · simp [AuthManager.get_token, hget, hv, hrt, hrf]
  · simp [FS.get_token, FS.save_token, aget_aput_self]

/-- Witness for C1: an expired token with no refresh token is deleted and
absent is returned. -/
theorem auth_manager_get_token_fail_closed_witness :
    AuthManager.get_token (some expiredRaisingProvider) sampleStore "gemini" "k1" true 0
        = (none, (sampleStore.delete_token "gemini" "k1").2) ∧
    ((sampleStore.delete_token "gemini" "k1").2).get_token "gemini" "k1" = none :=
  (auth_manager_get_token_fail_closed expiredRaisingProvider sampleStore "gemini" "k1"
      sampleToken 0 (by decide)).1 rfl rfl

/-- C3 counterexample: in `ClaudeAuth.authenticate` a probe status outside
200/400/429 — here 500 — is NOT classified as transient: it produces the
same permanent `api_key_validation_failed` error code as the invalid-key
status 401, and not the transient `connection_timeout` code. -/
theorem claude_authenticate_other_status_counterexample :
    (claude_authenticate (some "sk-test-key") none none (.status 500 "server error")
        0).success = false ∧
    (claude_authenticate (some "sk-test-key") none none (.status 500 "server error")
        0).error_code = some "api_key_validation_failed" ∧
    (claude_authenticate (some "sk-test-key") none none (.status 401 "unauthorized")
        0).error_code = some "api_key_validation_failed" ∧
    some "api_key_validation_failed" ≠ some "connection_timeout" :=
  ⟨rfl, rfl, rfl, by decide⟩

/-- C3 amended: `authenticate` treats 200/400/429 as proof of a valid key
(success carrying the key); ANY other status — 401 included — yields the
permanent `api_key_validation_failed` error result, and only a timeout is
classified transiently (`connection_timeout`).  `validate_token` maps
200/400/429 to VALID, 401 to INVALID, any other status to REFRESH_NEEDED,
and a timeout to REFRESH_NEEDED. -/
theorem claude_status_classification (api_key text probe_text : String)
    (key_id base_url : Option String) (code : Nat) (td : TokenData) (now : PyTime)
    (hkey : api_key ≠ "") (htok : td.access_token ≠ "")
    (hexp : td.is_expired now = false) :
    (code = 200 ∨ code = 400 ∨ code = 429 →
      (claude_authenticate (some api_key) key_id base_url (.status code text) now).success
          = true ∧
      (claude_authenticate (some api_key) key_id base_url (.status code text)
          now).token_data.map TokenData.access_token = some api_key) ∧
    (¬(code = 200 ∨ code = 400 ∨ code = 429) →
      (claude_authenticate (some api_key) key_id base_url (.status code text) now).success
          = false ∧
      (claude_authenticate (some api_key) key_id base_url (.status code text)
          now).error_code = some "api_key_validation_failed") ∧
    (claude_authenticate (some api_key) key_id base_url .timeout now).error_code
        = some "connection_timeout" ∧
    (code = 200 ∨ code = 400 ∨ code = 429 →
      claude_validate_token td (.status code probe_text) now = .valid) ∧
    (code = 401 → claude_validate_token td (.status code probe_text) now = .invalid) ∧
    (¬(code = 200 ∨ code = 400 ∨ code = 429) → code ≠ 401 →
      claude_validate_token td (.status code probe_text) now = .refreshNeeded) ∧
    claude_validate_token td .timeout now = .refreshNeeded := by
  refine ⟨fun hc => ?_, fun hc => ?_, ?_, fun hc => ?_, fun hc => ?_, fun hc h401 => ?_, ?_⟩
  · constructor <;>
      simp [claude_authenticate, AuthResult.success_result, hkey, hc]
  · constructor <;>
      simp [claude_authenticate, AuthResult.error_result, hkey, hc]
  · simp [claude_authenticate, AuthResult.error_result, hkey]
  · simp [claude_validate_token, htok, hexp, hc]
  · subst hc
    simp [claude_validate_token, htok, hexp]
  · simp [claude_validate_token, htok, hexp, hc, h401]
  · simp [claude_validate_token, htok, hexp]

/-- Witness for C3 (amended) at status 500: authenticate fails permanently
with `api_key_validation_failed`, while `validate_token` reports the
transient REFRESH_NEEDED. -/
theorem claude_status_classification_witness :
    ((claude_authenticate (some "sk-test-key") none none (.status 500 "oops") 0).success
        = false ∧
      (claude_authenticate (some "sk-test-key") none none (.status 500 "oops")
          0).error_code = some "api_key_validation_failed") ∧
    claude_validate_token { access_token := "sk-test-key" } (.status 500 "oops") 0
        = .refreshNeeded :=
  ⟨(claude_status_classification "sk-test-key" "oops" "oops" none none 500
        { access_token := "sk-test-key" } 0 (by decide) (by decide) rfl).2.1
      (by decide),
   (claude_status_classification "sk-test-key" "oops" "oops" none none 500
        { access_token := "sk-test-key" } 0 (by decide) (by decide) rfl).2.2.2.2.2.1
      (by decide) (by decide)⟩

/-- C4 counterexample: `FileStore.save_token` rewrites `created_at` on every
metadata write: after a first save at t=1s and a second save of the same
key at t=2s, the stored `created_at` is the second time, not the first. -/
theorem save_token_created_at_counterexample :
    ((aget (FS.save_token ⟨[], []⟩ "gemini" "k1" sampleToken (some []) 1000000).meta
        ("gemini", "k1")).map (fun d => aget d "created_at")
      = some (some (.time 1000000))) ∧
    ((aget ((FS.save_token ⟨[], []⟩ "gemini" "k1" sampleToken (some []) 1000000).save_token
        "gemini" "k1" sampleToken (some []) 2000000).meta
        ("gemini", "k1")).map (fun d => aget d "created_at")
      = some (some (.time 2000000))) ∧
    (MVal.time 2000000 ≠ MVal.time 1000000) :=
  ⟨by decide, by decide, by decide⟩

/-- C4 amended: `save_token` overwrites the token record for the key; when
metadata is supplied it writes a fresh metadata record whose `created_at`
AND `updated_at` are both the current time (so a second save with metadata
replaces the first write's `created_at` rather than preserving it); when
metadata is omitted the metadata store is untouched.  `created_at`
preservation is provided by `update_token_metadata`, which keeps an
existing `created_at` and refreshes `updated_at`. -/
theorem save_token_upsert_semantics (fs : FS) (provider key_id : String)
    (td : TokenData) (m : Dict) (now : PyTime) :
    ((FS.save_token fs provider key_id td (some m) now).get_token provider key_id
        = some td) ∧
    ((FS.save_token fs provider key_id td none now).get_token provider key_id
        = some td) ∧
    ((FS.save_token fs provider key_id td none now).meta = fs.meta) ∧
    ((∀ p ∈ m, p.1 ≠ "created_at") → (∀ p ∈ m, p.1 ≠ "updated_at") →
      ((aget (FS.save_token fs provider key_id td (some m) now).meta
          (provider, sanitize_key_id key_id)).map (fun d => aget d "created_at")
        = some (some (.time now))) ∧
      ((aget (FS.save_token fs provider key_id td (some m) now).meta
          (provider, sanitize_key_id key_id)).map (fun d => aget d "updated_at")
        = some (some (.time now)))) ∧
    (∀ patch c ex, (∀ p ∈ patch, p.1 ≠ "created_at") →
      aget fs.meta (provider, sanitize_key_id key_id) = some ex →
      aget ex "created_at" = some c →
      ((aget (FS.update_token_metadata fs provider key_id patch now).meta
          (provider, sanitize_key_id key_id)).map (fun d => aget d "created_at")
        = some (some c)) ∧
      ((aget (FS.update_token_metadata fs provider key_id patch now).meta
          (provider, sanitize_key_id key_id)).map (fun d => aget d "updated_at")
        = some (some (.time now)))) := by
  refine ⟨?_, ?_, rfl, fun hc hu => ⟨?_, ?_⟩, fun patch c ex hpatch hex hc => ⟨?_, ?_⟩⟩
  · simp [FS.get_token, FS.save_token, aget_aput_self]
  · simp [FS.get_token, FS.save_token, aget_aput_self]
  · simp only [FS.save_token, aget_aput_self, Option.map_some']
    rw [aget_aupdate_of_not_mem _ _ _ hc]
    rfl
  · simp only [FS.save_token, aget_aput_self, Option.map_some']
    rw [aget_aupdate_of_not_mem _ _ _ hu]
    rfl
  · have hkeep : aget (aupdate ex patch) "created_at" = some c := by
      rw [aget_aupdate_of_not_mem _ _ _ hpatch, hc]
    have hkeep2 :
        aget (aput (aupdate ex patch) "updated_at" (.time now)) "created_at" = some c := by
      rw [aget_aput_ne _ _ _ _ (by decide)]
      exact hkeep
    simp only [FS.update_token_metadata, hex, Option.getD_some, aget_aput_self,
      hkeep2, Option.isSome_some, if_true, Option.map_some']
  · have hkeep2 :
        aget (aput (aupdate ex patch) "updated_at" (.time now)) "created_at" = some c := by
      rw [aget_aput_ne _ _ _ _ (by decide), aget_aupdate_of_not_mem _ _ _ hpatch, hc]
    simp only [FS.update_token_metadata, hex, Option.getD_some, aget_aput_self,
      hkeep2, Option.isSome_some, if_true, Option.map_some', aget_aput_self]

/-- Witness for C4 (amended): a save with fresh metadata stamps both
timestamps with the save time, and `update_token_metadata` preserves an
existing `created_at`. -/
theorem save_token_upsert_semantics_witness :
    (((aget (FS.save_token ⟨[], []⟩ "gemini" "k1" sampleToken
          (some [("auth_method", .str "api_key")]) 1000000).meta
        ("gemini", "k1")).map (fun d => aget d "created_at")
      = some (some (.time 1000000))) ∧
     ((aget (FS.save_token ⟨[], []⟩ "gemini" "k1" sampleToken
          (some [("auth_method", .str "api_key")]) 1000000).meta
        ("gemini", "k1")).map (fun d => aget d "updated_at")
      = some (some (.time 1000000)))) ∧
    ((aget (FS.update_token_metadata
          ⟨[], [(("gemini", "k1"), [("created_at", .time 1000000)])]⟩
          "gemini" "k1" [("note", .str "x")] 2000000).meta
        ("gemini", "k1")).map (fun d => aget d "created_at")
      = some (some (.time 1000000))) :=
  ⟨(save_token_upsert_semantics ⟨[], []⟩ "gemini" "k1" sampleToken
        [("auth_method", .str "api_key")] 1000000).2.2.2.1
      (by decide) (by decide),
   ((save_token_upsert_semantics
        ⟨[], [(("gemini", "k1"), [("created_at", .time 1000000)])]⟩
        "gemini" "k1" sampleToken [] 2000000).2.2.2.2
      [("note", .str "x")] (.time 1000000) [("created_at", .time 1000000)]
      (by decide) (by decide) (by decide)).1⟩

/-- C5: translating the OpenAI request succeeds, and translating the
synthetic Gemini response yields a success whose data has exactly one
choice, with assistant message content `"hello"`, and
`usage.total_tokens = 4`.  `pyHash` abstracts Python's `hash` used only for
the fallback response id. -/
theorem openai_gemini_round_pair (pyHash : JObj → Int) :
    (translate_request roundPairRequest).success = true ∧
    (translate_response pyHash roundPairResponse).success = true ∧
    ((translate_response pyHash roundPairResponse).translated_data.bind
        (fun d => d.get? "choices"))
      = some (.arr [.obj
          [("index", .num 0),
           ("message", .obj [("role", .str "assistant"), ("content", .str "hello")]),
           ("finish_reason", .str "STOP")]]) ∧
    (((translate_response pyHash roundPairResponse).translated_data.bind
        (fun d => d.get? "usage")).bind (fun u => u.get? "total_tokens"))
      = some (.num 4) :=
  ⟨rfl, rfl, rfl, rfl⟩

/-- C6: the registry resolves `translate_request` by the exact
`(source, target)` key and `translate_response` by the reverse
`(target, source)` key; an unregistered pair makes either return the typed
`translator_not_found` error result (the functions are total — no
exception escapes). -/
theorem registry_lookup_spec (pyHash : JObj → Int) (s t : String) (d r : JObj) :
    (get_translator s t = none →
      registry_translate_request s t d
        = TranslationResult.error_result
            ("No translator found from " ++ s ++ " to " ++ t)
            "translator_not_found" s t) ∧
    (get_translator t s = none →
      registry_translate_response pyHash s t r
        = TranslationResult.error_result
            ("No translator found from " ++ t ++ " back to " ++ s)
            "translator_not_found" t s) ∧
    (get_translator s t = some .openaiToGemini →
      registry_translate_request s t d = translate_request d) ∧
    (get_translator t s = some .openaiToGemini →
      registry_translate_response pyHash s t r = translate_response pyHash r) := by
  refine ⟨fun h => ?_, fun h => ?_, fun h => ?_, fun h => ?_⟩ <;>
    simp [registry_translate_request, registry_translate_response, h]

/-- Witness for C6: `(claude, gemini)` is unregistered so the request path
returns the typed error; the response path for original source `gemini`
and target `openai` resolves the registered `openai:gemini` translator. -/
theorem registry_lookup_spec_witness :
    (registry_translate_request "claude" "gemini" []
      = TranslationResult.error_result
          ("No translator found from " ++ "claude" ++ " to " ++ "gemini")
          "translator_not_found" "claude" "gemini") ∧
    (registry_translate_response (fun _ => 0) "gemini" "openai" []
      = translate_response (fun _ => 0) []) :=
  ⟨(registry_lookup_spec (fun _ => 0) "claude" "gemini" [] []).1 rfl,
   (registry_lookup_spec (fun _ => 0) "gemini" "openai" [] []).2.2.2 rfl⟩

/-- C10: the file store addresses records by the sanitized `key_id`, so two
key ids with the same sanitized form alias one record: a save under one is
visible under the other, a save under the second overwrites the first, and
(with no metadata file) `list_tokens` reports the sanitized name as the
`key_id`. -/
theorem sanitized_key_aliasing (fs : FS) (provider k1 k2 : String)
    (t1 t2 td : TokenData) (now now2 now3 : PyTime)
    (hsan : sanitize_key_id k1 = sanitize_key_id k2) (hne : k1 ≠ k2) :
    ((FS.save_token fs provider k1 td none now).get_token provider k2 = some td) ∧
    (((FS.save_token fs provider k1 t1 none now).save_token provider k2 t2 none
        now2).get_token provider k1 = some t2) ∧
    (((FS.list_tokens (FS.save_token ⟨[], []⟩ provider k1 td none now)
        (some provider) now3).map (fun dct => aget dct "key_id"))
      = [some (.str (sanitize_key_id k1))]) := by
  refine ⟨?_, ?_, ?_⟩
  · simp [FS.get_token, FS.save_token, ← hsan, aget_aput_self]
  · simp [FS.get_token, FS.save_token, ← hsan, aget_aput_self]
  · simp [FS.list_tokens, FS.save_token, aput, aget, adel, List.filter]

/-- Witness for C10 with the aliasing pair `"a/b"` and `"ab"`. -/
theorem sanitized_key_aliasing_witness :
    (FS.save_token ⟨[], []⟩ "gemini" "a/b" sampleToken none 0).get_token "gemini" "ab"
        = some sampleToken :=
  (sanitized_key_aliasing ⟨[], []⟩ "gemini" "a/b" "ab" sampleToken sampleToken
      sampleToken 0 0 0 (by decide) (by decide)).1

end CLIProxy
